import Mathlib

/-!
Shallow embedding of the rana_project front-end detection subsystem.

The repository contains two variants of the `DetectionEngine` React
component:

* the "simple-polling" variant, `src/frontend/src/components/DetectionEngine.jsx`
  (700 ms timer, confidence threshold 0.35, guards on `naturalWidth === 0`);
* the "frame-relay" variant, `src/unnamed/part_000`
  (1000 ms timer, threshold 0.18, WebSocket frame relay, `evidence_url`
  short-circuit, guards on the `videoWidth || naturalWidth || clientWidth`
  fallback chain for both axes).

Besides these we embed the admin API wrapper `fetchData`
(`src/frontend/src/api/admin.js`) and the auth provider's `logout`
(`src/unnamed/part_001`).

Stateful component code is modelled as step functions from explicit state
(the `lastReportTime` ref, the `isProcessing` busy flag) and a
per-tick environment (media dimensions, wall-clock time, network outcome)
to an ordered trace of primitive effects plus the next state.
JavaScript numbers that hold pixel sizes and confidences are modelled as
rationals; wall-clock milliseconds as naturals.
-/

namespace Rana

/-- One detector prediction, as produced by `POST /api/admin/detect`:
`{class, conf, x, y, w, h}`.  The JS field `class` is called `cls` here
because `class` is a Lean keyword. -/
structure Prediction where
  cls  : String
  conf : ℚ
  x    : ℚ
  y    : ℚ
  w    : ℚ
  h    : ℚ
deriving Repr, DecidableEq

/-- Parsed body of a successful detect response:
`{ predictions: [...], evidence_url? }`. -/
structure DetectResp where
  predictions  : List Prediction
  evidence_url : Option String
deriving Repr, DecidableEq

/-- Primitive observable effects of one detection cycle, in program order. -/
inductive Ev where
  /-- assignment to the `isProcessing` ref -/
  | setBusy (b : Bool)
  /-- drawing the current frame into the off-screen canvas (`drawImage` /
  `toDataURL`), at the captured source size -/
  | capture (w h : ℚ)
  /-- the `fetch` of `POST /api/admin/detect` -/
  | detectPost
  /-- the call to `drawOverlay` -/
  | drawOverlayEv
  /-- the `reportViolation` call, i.e. `POST /api/admin/report-violation` -/
  | reportPost (p : Prediction)
  /-- the purely local `alert("🚨 Phone Violation Recorded!")` taken on the
  `evidence_url` branch of the frame-relay variant -/
  | localAlert
deriving Repr, DecidableEq

/-- Outcome of the network round trip inside the `try` block: either the
`fetch`/`response.json()` throws (caught by the surrounding `catch`), or it
yields a parsed `DetectResp`. -/
inductive NetOutcome where
  | throw
  | ok (data : DetectResp)
deriving Repr, DecidableEq

/-- JS `a || b` on numbers (0 is falsy). -/
def jsOrQ (a b : ℚ) : ℚ := if a == 0 then b else a

/-- JS truthiness of an optional string field: an absent field
(undefined/null, modelled `none`) and the empty string are falsy; every
other string is truthy. -/
def jsTruthyOptStr : Option String → Bool
  | none => false
  | some s => s != ""

/-- The literal `0.35` of `DetectionEngine.jsx` line 38, as the rational
7/20 in lowest terms. -/
def threshSimple : ℚ := ⟨7, 20, by norm_num, by norm_num [Nat.Coprime]⟩

/-- The literal `0.18` of `part_000` line 103, as the rational 9/50 in
lowest terms. -/
def threshRelay : ℚ := ⟨9, 50, by norm_num, by norm_num [Nat.Coprime]⟩

/-- `p.class === 'cell phone' && p.conf > 0.35` — the qualifying predicate of
the simple-polling variant (`DetectionEngine.jsx` line 38). -/
def qualifiesSimple (p : Prediction) : Bool :=
  p.cls == "cell phone" && decide (threshSimple < p.conf)

/-- `p.class === 'cell phone' && p.conf > 0.18` — the qualifying predicate of
the frame-relay variant (`part_000` line 103). -/
def qualifiesRelay (p : Prediction) : Bool :=
  p.cls == "cell phone" && decide (threshRelay < p.conf)

/-- Per-tick environment of the simple-polling variant. -/
structure SimpleEnv where
  /-- `imageRef.current` is non-null -/
  imagePresent  : Bool
  naturalWidth  : ℚ
  naturalHeight : ℚ
  /-- `classId` prop, `none` when falsy -/
  classId       : Option Nat
  /-- `teacherId` prop, `none` when falsy -/
  teacherId     : Option Nat
  /-- `Date.now()` at this tick, in ms -/
  now           : Nat
deriving Repr, DecidableEq

/-- One firing of `detectFrame` in the simple-polling variant
(`DetectionEngine.jsx` lines 9–54).  Returns the trace of effects and the
new `lastReportTime`. -/
def detectFrameSimple (busy : Bool) (lastReportTime : Nat) (env : SimpleEnv)
    (net : NetOutcome) : List Ev × Nat :=
  -- line 10: if (isProcessing.current || !imageRef.current || naturalWidth === 0) return
  if busy || !env.imagePresent || env.naturalWidth == 0 then ([], lastReportTime)
  -- lines 13–16: if (!classId || !teacherId) return   (before the busy flag is set)
  else if env.classId.isNone || env.teacherId.isNone then ([], lastReportTime)
  else
    let header : List Ev :=
      [.setBusy true, .capture env.naturalWidth env.naturalHeight, .detectPost]
    match net with
    | .throw => (header ++ [.setBusy false], lastReportTime)
    | .ok data =>
      let body : List Ev × Nat :=
        match data.predictions.find? qualifiesSimple with
        | some phone =>
          if 12000 < env.now - lastReportTime then ([.reportPost phone], env.now)
          else ([], lastReportTime)
        | none => ([], lastReportTime)
      (header ++ [.drawOverlayEv] ++ body.1 ++ [.setBusy false], body.2)

/-- Per-tick environment of the frame-relay variant. -/
structure RelayEnv where
  imagePresent  : Bool
  videoWidth    : ℚ
  naturalWidth  : ℚ
  clientWidth   : ℚ
  videoHeight   : ℚ
  naturalHeight : ℚ
  clientHeight  : ℚ
  now           : Nat
deriving Repr, DecidableEq

/-- `baseEl.videoWidth || baseEl.naturalWidth || baseEl.clientWidth`
(`part_000` line 73). -/
def RelayEnv.srcW (env : RelayEnv) : ℚ :=
  jsOrQ env.videoWidth (jsOrQ env.naturalWidth env.clientWidth)

/-- `baseEl.videoHeight || baseEl.naturalHeight || baseEl.clientHeight`
(`part_000` line 74). -/
def RelayEnv.srcH (env : RelayEnv) : ℚ :=
  jsOrQ env.videoHeight (jsOrQ env.naturalHeight env.clientHeight)

/-- One firing of `detectFrame` in the frame-relay variant (`part_000`
lines 68–121).  The `!classId || !teacherId` guard of this variant sits in
the surrounding effect (line 66), before the timer is even installed, so it
does not appear per tick here. -/
def detectFrameRelay (busy : Bool) (lastReportTime : Nat) (env : RelayEnv)
    (net : NetOutcome) : List Ev × Nat :=
  -- line 69: if (isProcessing.current) return
  if busy then ([], lastReportTime)
  -- line 70: if (!imageRef.current) return
  else if !env.imagePresent then ([], lastReportTime)
  -- line 75: if (!srcW || !srcH) return
  else if env.srcW == 0 || env.srcH == 0 then ([], lastReportTime)
  else
    let header : List Ev := [.setBusy true, .capture env.srcW env.srcH, .detectPost]
    match net with
    | .throw => (header ++ [.setBusy false], lastReportTime)
    | .ok data =>
      let phone := data.predictions.find? qualifiesRelay
      -- line 105: const shouldThrottle = (now - lastReportTime.current) > 12000
      let shouldThrottle := decide (12000 < env.now - lastReportTime)
      let body : List Ev × Nat :=
        -- line 108: if (data.evidence_url && shouldThrottle) — JS truthiness,
        -- so an empty-string evidence_url falls through to the else-if
        if jsTruthyOptStr data.evidence_url && shouldThrottle then ([.localAlert], env.now)
        else
          -- line 111: else if (phone && shouldThrottle)
          match phone with
          | some ph =>
            if shouldThrottle then ([.reportPost ph], env.now) else ([], lastReportTime)
          | none => ([], lastReportTime)
      (header ++ [.drawOverlayEv] ++ body.1 ++ [.setBusy false], body.2)

/-- Number of `reportPost` events (report-violation POSTs) in a trace. -/
def countReports (evs : List Ev) : Nat :=
  evs.countP fun e => match e with | .reportPost _ => true | _ => false

/-- Whether a trace contains any `capture` or `detectPost` effect. -/
def hasCaptureOrSend (evs : List Ev) : Bool :=
  evs.any fun e =>
    match e with
    | .capture _ _ => true
    | .detectPost  => true
    | _            => false

/-- Run the simple-polling `detectFrame` over a sequence of ticks, each tick
completing before the next fires (the synchronous execution the 700 ms timer
yields when cycles finish within the period).  Returns the concatenated
trace and the final `lastReportTime`. -/
def runSimple (lastReportTime : Nat) :
    List (SimpleEnv × NetOutcome) → List Ev × Nat
  | [] => ([], lastReportTime)
  | (env, net) :: rest =>
    let step := detectFrameSimple false lastReportTime env net
    let tail := runSimple step.2 rest
    (step.1 ++ tail.1, tail.2)

/-- Run the frame-relay `detectFrame` over a sequence of completed ticks. -/
def runRelay (lastReportTime : Nat) :
    List (RelayEnv × NetOutcome) → List Ev × Nat
  | [] => ([], lastReportTime)
  | (env, net) :: rest =>
    let step := detectFrameRelay false lastReportTime env net
    let tail := runRelay step.2 rest
    (step.1 ++ tail.1, tail.2)

/-! ### Overlay renderer (`drawOverlay`) -/

/-- Canvas drawing commands actually issued on the overlay surface. -/
inductive DrawCmd where
  /-- `canvas.width = w; canvas.height = h; ctx.clearRect(0,0,w,h)` -/
  | clear (w h : ℚ)
  /-- `ctx.strokeRect(x, y, w, h)` with the given `strokeStyle` -/
  | rect (color : String) (x y w h : ℚ)
  /-- `ctx.fillText(text, x, y)` with the given `fillStyle` -/
  | label (color : String) (text : String) (x y : ℚ)
deriving Repr, DecidableEq

/-- `String.prototype.toUpperCase` on the ASCII class labels the detector
emits, written over `String.data` so that the kernel can evaluate it. -/
def upperAscii (s : String) : String := String.mk (s.data.map Char.toUpper)

/-- The commands the `forEach` body of `drawOverlay` issues for one
prediction: a stroked rectangle and the uppercased class label, both in red
for `"cell phone"` and green otherwise (`DetectionEngine.jsx` lines 103–115
and `part_000` lines 176–188, identical bodies). -/
def predCmds (scaleX scaleY : ℚ) (p : Prediction) : List DrawCmd :=
  let color := if p.cls == "cell phone" then "#ff0000" else "#00ff00"
  [ .rect color (p.x * scaleX) (p.y * scaleY) (p.w * scaleX) (p.h * scaleY),
    .label color (upperAscii p.cls) (p.x * scaleX) (p.y * scaleY - 10) ]

/-- `drawOverlay(predictions)` of the simple-polling variant
(`DetectionEngine.jsx` lines 94–116): canvas resized to the image's client
size, scale factors `clientWidth/naturalWidth` and
`clientHeight/naturalHeight`. -/
def drawOverlaySimple (canvasPresent imagePresent : Bool)
    (clientWidth clientHeight naturalWidth naturalHeight : ℚ)
    (preds : List Prediction) : List DrawCmd :=
  if !canvasPresent || !imagePresent then []
  else
    let scaleX := clientWidth / naturalWidth
    let scaleY := clientHeight / naturalHeight
    .clear clientWidth clientHeight :: preds.flatMap (predCmds scaleX scaleY)

/-- `drawOverlay(predictions, dims)` of the frame-relay variant (`part_000`
lines 161–189).  `dimsW`/`dimsH` model `dims && dims.srcW` / `dims && dims.srcH`
with `0` for an absent or falsy value; the source falls back to the
`videoWidth || naturalWidth || clientWidth` chain, displays at
`clientWidth || srcW`, and bails out if any of the four sizes is zero. -/
def drawOverlayRelay (canvasPresent imagePresent : Bool) (dimsW dimsH : ℚ)
    (env : RelayEnv) (preds : List Prediction) : List DrawCmd :=
  if !canvasPresent || !imagePresent then []
  else
    let srcW := jsOrQ dimsW env.srcW
    let srcH := jsOrQ dimsH env.srcH
    let dispW := jsOrQ env.clientWidth srcW
    let dispH := jsOrQ env.clientHeight srcH
    if srcW == 0 || srcH == 0 || dispW == 0 || dispH == 0 then []
    else
      .clear dispW dispH :: preds.flatMap (predCmds (dispW / srcW) (dispH / srcH))

/-! ### Frame source reconciler (`streamWsRef.current.onmessage`) -/

/-- A parsed message of the frame-relay socket:
`{ type: "frame", image: data-URI, predictions: [...] }`. -/
structure StreamMsg where
  type        : String
  image       : String
  predictions : List Prediction
deriving Repr, DecidableEq

/-- ASCII lower-casing over `String.data` (JS regex `/i` canonicalisation
folds the case of ASCII pattern characters only). -/
def lowerAscii (s : String) : String := String.mk (s.data.map Char.toLower)

/-- The test `/^https?:\/\//i.test(curSrc)` (`part_000` line 32): the source
starts with `http://` or `https://`, case-insensitively. -/
def isHttpStream (s : String) : Bool :=
  "http://".data.isPrefixOf (lowerAscii s).data ||
    "https://".data.isPrefixOf (lowerAscii s).data

/-- The `src` the video element holds after one `onmessage` of the stream
socket (`part_000` lines 24–47).  `msg = none` models a `JSON.parse` throw
(caught, nothing written).  `curSrc` is `imageRef.current.src || ''`. -/
def onStreamMessage (msg : Option StreamMsg) (imagePresent : Bool)
    (curSrc : String) : String :=
  match msg with
  | none => curSrc
  | some m =>
    if m.type == "frame" then
      if imagePresent then
        if isHttpStream curSrc then curSrc else m.image
      else curSrc
    else curSrc

/-! ### Admin API wrapper (`fetchData`, `src/frontend/src/api/admin.js`) -/

/-- What `response.json()` yields on an error response: a parse failure, or
a parsed body that may carry a `detail` field (`none` models both a missing
field and a non-object body). -/
inductive FetchBody where
  | notJson
  | json (detail : Option String)
deriving Repr, DecidableEq

/-- An HTTP response as `fetchData` observes it. -/
structure HttpResp where
  ok     : Bool
  status : Nat
  body   : FetchBody
deriving Repr, DecidableEq

/-- The message `getAuthHeaders` throws when the token is missing
(`admin.js` line 10). -/
def authErrorMsg : String := "Authentication token required for protected endpoint."

/-- The default error message of `fetchData` (`admin.js` line 40). -/
def defaultErrorMsg (status : Nat) : String :=
  "Request failed with status " ++ toString status ++ "."

/-- `errorData.detail || detail` (`admin.js` line 44): JavaScript `||`, so an
empty-string `detail` is falsy and falls back to the default. -/
def detailOrDefault (body : FetchBody) (dflt : String) : String :=
  match body with
  | .json (some d) => if d == "" then dflt else d
  | _ => dflt

/-- `fetchData(endpoint, token, options)` (`admin.js` lines 22–53), modelled
against an arbitrary server response.  `getAuthHeaders` throws on
`if (!token)` (line 8) — JS truthiness, so both an absent and an empty-string
token throw before the `fetch` is reached.  The boolean records whether the
`fetch` (the network call) was reached; the `Except` is the thrown error
message or the parsed success body (whose value the claims do not need). -/
def fetchData (token : Option String) (resp : HttpResp) :
    Bool × Except String Unit :=
  if !jsTruthyOptStr token then (false, .error authErrorMsg)
  else if resp.ok then (true, .ok ())
  else (true, .error (detailOrDefault resp.body (defaultErrorMsg resp.status)))

/-! ### Auth provider logout (`src/unnamed/part_001` lines 49–55) -/

/-- The provider state the `useAuth` hook exposes. -/
structure AuthState where
  token           : Option String
  isAuthenticated : Bool
  userRole        : Option String
deriving Repr, DecidableEq

/-- Client-side key/value storage (`localStorage`) as an association list. -/
def Store := List (String × String)

/-- `localStorage.getItem` -/
def Store.getItem (s : Store) (k : String) : Option String :=
  (List.lookup k s : Option String)

/-- `logout`: `localStorage.clear(); setToken(null); setIsAuthenticated(false);
setUserRole(null)`. -/
def logout (_st : AuthState) (_store : Store) : AuthState × Store :=
  ({ token := none, isAuthenticated := false, userRole := none }, ([] : List (String × String)))

/-- `lastReportTime = useRef(0)` — the cooldown timestamp both variants start
from (`DetectionEngine.jsx` line 5, `part_000` line 5). -/
def initialLastReportTime : Nat := 0

/-! ### Concrete inputs used by scenarios, witnesses and counterexamples

The rationals below are given in lowest terms (explicit numerator and
denominator) so that the kernel can evaluate comparisons on them. -/

/-- The rational 0.5 — the confidence of the spec's overlay scenario. -/
def halfQ : ℚ := ⟨1, 2, by norm_num, by norm_num [Nat.Coprime]⟩

/-- The rational 0.25 — a confidence at most the simple variant's 0.35
threshold. -/
def quarterQ : ℚ := ⟨1, 4, by norm_num, by norm_num [Nat.Coprime]⟩

/-- The spec scenario's prediction
`{class:"cell phone", conf:0.5, x:10, y:10, w:50, h:50}`. -/
def cellPhoneHalf : Prediction :=
  { cls := "cell phone", conf := halfQ, x := 10, y := 10, w := 50, h := 50 }

/-- A `cell phone` prediction whose confidence 0.25 does not exceed 0.35. -/
def lowConfPhone : Prediction :=
  { cls := "cell phone", conf := quarterQ, x := 0, y := 0, w := 0, h := 0 }

/-- A confident prediction of a non-target class. -/
def laptopPred : Prediction :=
  { cls := "laptop", conf := 1, x := 0, y := 0, w := 0, h := 0 }

/-- A detect response holding the scenario prediction and no `evidence_url`. -/
def qualResp : DetectResp := { predictions := [cellPhoneHalf], evidence_url := none }

/-- A detect response with a qualifying prediction *and* server-saved
evidence. -/
def evidResp : DetectResp :=
  { predictions := [cellPhoneHalf], evidence_url := some "http://host/evidence.jpg" }

/-- A detect response with a qualifying prediction and an evidence_url field
that is present but empty — JS-falsy. -/
def evidEmptyResp : DetectResp :=
  { predictions := [cellPhoneHalf], evidence_url := some "" }

/-- A simple-variant tick at time `t` over a ready 640×480 image. -/
def simpleTickEnv (t : Nat) : SimpleEnv :=
  { imagePresent := true, naturalWidth := 640, naturalHeight := 480,
    classId := some 1, teacherId := some 1, now := t }

/-- A relay-variant tick at time `t` over a ready 640×480 video displayed at
1280×960. -/
def relayTickEnv (t : Nat) : RelayEnv :=
  { imagePresent := true, videoWidth := 640, naturalWidth := 0, clientWidth := 1280,
    videoHeight := 480, naturalHeight := 0, clientHeight := 960, now := t }

/-! ## Theorems -/

/-- Helper: a detection cycle of the simple-polling variant whose tick time is
within the 12 s window of the current timestamp sends no report and leaves the
timestamp unchanged. -/
theorem simple_suppressed (busy : Bool) (st : Nat) (env : SimpleEnv)
    (net : NetOutcome) (h : env.now ≤ st + 12000) :
    countReports (detectFrameSimple busy st env net).1 = 0 ∧
      (detectFrameSimple busy st env net).2 = st := by
  unfold detectFrameSimple
  split_ifs with h1 h2 h3
  · exact ⟨rfl, rfl⟩
  · exact ⟨rfl, rfl⟩
  · exact absurd h3 (by omega)
  · cases net with
    | throw => simp [countReports]
    | ok data =>
      rcases hf : data.predictions.find? qualifiesSimple with _ | ph <;>
        simp [hf, countReports]

/-- Helper: the same suppression fact for the frame-relay variant; within the
window neither branch (evidence acknowledgment or report) fires. -/
theorem relay_suppressed (busy : Bool) (st : Nat) (env : RelayEnv)
    (net : NetOutcome) (h : env.now ≤ st + 12000) :
    countReports (detectFrameRelay busy st env net).1 = 0 ∧
      (detectFrameRelay busy st env net).2 = st := by
  have hnt : ¬ (12000 < env.now - st) := by omega
  unfold detectFrameRelay
  split_ifs with h1 h2 h3
  · exact ⟨rfl, rfl⟩
  · exact ⟨rfl, rfl⟩
  · exact ⟨rfl, rfl⟩
  · cases net with
    | throw => simp [countReports]
    | ok data =>
      rcases hf : data.predictions.find? qualifiesRelay with _ | ph <;>
        simp [hf, hnt, countReports]

/-- Helper: an accepted cycle of the simple-polling variant — guards pass, the
cooldown has elapsed, and the prediction scan finds a qualifying one — sends
exactly that one report and moves the timestamp to the tick time. -/
theorem simple_accepted (st : Nat) (env : SimpleEnv) (data : DetectResp)
    (ph : Prediction)
    (himg : env.imagePresent = true) (hw : ¬ env.naturalWidth = 0)
    (hcid : env.classId.isSome) (htid : env.teacherId.isSome)
    (hcool : st + 12000 < env.now)
    (hf : data.predictions.find? qualifiesSimple = some ph) :
    (detectFrameSimple false st env (.ok data)).1 =
      [.setBusy true, .capture env.naturalWidth env.naturalHeight, .detectPost,
       .drawOverlayEv, .reportPost ph, .setBusy false] ∧
    countReports (detectFrameSimple false st env (.ok data)).1 = 1 ∧
    (detectFrameSimple false st env (.ok data)).2 = env.now := by
  have ht : 12000 < env.now - st := by omega
  unfold detectFrameSimple
  simp [himg, hw, Option.isNone_iff_eq_none, Option.ne_none_iff_isSome.mpr hcid,
    Option.ne_none_iff_isSome.mpr htid, hf, ht, countReports]

/-- Helper: an accepted cycle of the frame-relay variant with no
`evidence_url` in the response sends exactly the found report and moves the
timestamp to the tick time. -/
theorem relay_accepted (st : Nat) (env : RelayEnv) (data : DetectResp)
    (ph : Prediction)
    (himg : env.imagePresent = true) (hw : ¬ env.srcW = 0) (hh : ¬ env.srcH = 0)
    (hcool : st + 12000 < env.now)
    (hev : data.evidence_url = none)
    (hf : data.predictions.find? qualifiesRelay = some ph) :
    (detectFrameRelay false st env (.ok data)).1 =
      [.setBusy true, .capture env.srcW env.srcH, .detectPost,
       .drawOverlayEv, .reportPost ph, .setBusy false] ∧
    countReports (detectFrameRelay false st env (.ok data)).1 = 1 ∧
    (detectFrameRelay false st env (.ok data)).2 = env.now := by
  have ht : 12000 < env.now - st := by omega
  unfold detectFrameRelay
  simp [himg, hw, hh, hev, hf, ht, countReports, jsTruthyOptStr]

/-- Helper: suppression extends to whole tick sequences of the simple-polling
variant — while every tick stays within the window, no report at all is sent
and the timestamp never moves. -/
theorem runSimple_suppressed (st : Nat) (ticks : List (SimpleEnv × NetOutcome))
    (h : ∀ t ∈ ticks, (t : SimpleEnv × NetOutcome).1.now ≤ st + 12000) :
    countReports (runSimple st ticks).1 = 0 ∧ (runSimple st ticks).2 = st := by
  induction ticks with
  | nil => simp [runSimple, countReports]
  | cons t rest ih =>
    obtain ⟨hc, hs⟩ := simple_suppressed false st t.1 t.2 (h t (by simp))
    have hr := ih fun x hx => h x (by simp [hx])
    simp only [runSimple]
    rw [hs]
    refine ⟨?_, hr.2⟩
    simp [countReports, List.countP_append] at hc hr ⊢
    exact ⟨hc, hr.1⟩

/-- Helper: run-level suppression for the frame-relay variant. -/
theorem runRelay_suppressed (st : Nat) (ticks : List (RelayEnv × NetOutcome))
    (h : ∀ t ∈ ticks, (t : RelayEnv × NetOutcome).1.now ≤ st + 12000) :
    countReports (runRelay st ticks).1 = 0 ∧ (runRelay st ticks).2 = st := by
  induction ticks with
  | nil => simp [runRelay, countReports]
  | cons t rest ih =>
    obtain ⟨hc, hs⟩ := relay_suppressed false st t.1 t.2 (h t (by simp))
    have hr := ih fun x hx => h x (by simp [hx])
    simp only [runRelay]
    rw [hs]
    refine ⟨?_, hr.2⟩
    simp [countReports, List.countP_append] at hc hr ⊢
    exact ⟨hc, hr.1⟩

/-- Helper: a cycle of the simple-polling variant that passes its guards sets
the busy flag first, clears it last, and never touches it in between —
whatever the network outcome. -/
theorem simple_shape (st : Nat) (env : SimpleEnv) (net : NetOutcome)
    (himg : env.imagePresent = true) (hw : ¬ env.naturalWidth = 0)
    (hcid : env.classId.isSome) (htid : env.teacherId.isSome) :
    ∃ mid, (detectFrameSimple false st env net).1 =
        Ev.setBusy true :: (mid ++ [Ev.setBusy false]) ∧
      ∀ b, Ev.setBusy b ∉ mid := by
  unfold detectFrameSimple
  rw [if_neg (by simp [himg, hw]),
    if_neg (by simp [Option.isNone_iff_eq_none, Option.ne_none_iff_isSome.mpr hcid,
      Option.ne_none_iff_isSome.mpr htid])]
  cases net with
  | throw => exact ⟨[.capture env.naturalWidth env.naturalHeight, .detectPost], by simp, by simp⟩
  | ok data =>
    rcases hf : data.predictions.find? qualifiesSimple with _ | ph
    · exact ⟨[.capture env.naturalWidth env.naturalHeight, .detectPost, .drawOverlayEv],
        by simp [hf], by simp⟩
    · by_cases hth : (12000 : Nat) < env.now - st
      · exact ⟨[.capture env.naturalWidth env.naturalHeight, .detectPost, .drawOverlayEv,
            .reportPost ph], by simp [hf, hth], by simp⟩
      · exact ⟨[.capture env.naturalWidth env.naturalHeight, .detectPost, .drawOverlayEv],
            by simp [hf, hth], by simp⟩

/-- Helper: the same flag discipline for the frame-relay variant. -/
theorem relay_shape (st : Nat) (env : RelayEnv) (net : NetOutcome)
    (himg : env.imagePresent = true) (hw : ¬ env.srcW = 0) (hh : ¬ env.srcH = 0) :
    ∃ mid, (detectFrameRelay false st env net).1 =
        Ev.setBusy true :: (mid ++ [Ev.setBusy false]) ∧
      ∀ b, Ev.setBusy b ∉ mid := by
  unfold detectFrameRelay
  have hg : (env.srcW == 0 || env.srcH == 0) = false := by simp [hw, hh]
  rw [if_neg (by simp), if_neg (by simp [himg]), hg]
  simp only [Bool.false_eq_true, if_false]
  cases net with
  | throw => exact ⟨[.capture env.srcW env.srcH, .detectPost], by simp, by simp⟩
  | ok data =>
    rcases hev : data.evidence_url with _ | u
    · rcases hf : data.predictions.find? qualifiesRelay with _ | ph
      · exact ⟨[.capture env.srcW env.srcH, .detectPost, .drawOverlayEv],
          by simp [hev, hf, jsTruthyOptStr], by simp⟩
      · by_cases hth : (12000 : Nat) < env.now - st
        · exact ⟨[.capture env.srcW env.srcH, .detectPost, .drawOverlayEv, .reportPost ph],
            by simp [hev, hf, hth, jsTruthyOptStr], by simp⟩
        · exact ⟨[.capture env.srcW env.srcH, .detectPost, .drawOverlayEv],
            by simp [hev, hf, hth, jsTruthyOptStr], by simp⟩
    · by_cases hu : u = ""
      · rcases hf : data.predictions.find? qualifiesRelay with _ | ph
        · exact ⟨[.capture env.srcW env.srcH, .detectPost, .drawOverlayEv],
            by simp [hev, hf, hu, jsTruthyOptStr], by simp⟩
        · by_cases hth : (12000 : Nat) < env.now - st
          · exact ⟨[.capture env.srcW env.srcH, .detectPost, .drawOverlayEv, .reportPost ph],
              by simp [hev, hf, hu, hth, jsTruthyOptStr], by simp⟩
          · exact ⟨[.capture env.srcW env.srcH, .detectPost, .drawOverlayEv],
              by simp [hev, hf, hu, hth, jsTruthyOptStr], by simp⟩
      · by_cases hth : (12000 : Nat) < env.now - st
        · exact ⟨[.capture env.srcW env.srcH, .detectPost, .drawOverlayEv, .localAlert],
            by simp [hev, hth, hu, jsTruthyOptStr], by simp⟩
        · rcases hf : data.predictions.find? qualifiesRelay with _ | ph
          · exact ⟨[.capture env.srcW env.srcH, .detectPost, .drawOverlayEv],
              by simp [hev, hf, hth, hu, jsTruthyOptStr], by simp⟩
          · exact ⟨[.capture env.srcW env.srcH, .detectPost, .drawOverlayEv],
              by simp [hev, hf, hth, hu, jsTruthyOptStr], by simp⟩

/-- Helper: the simple-polling cycle either leaves the cooldown timestamp
alone or assigns it the tick's `Date.now()`. -/
theorem simple_state_cases (busy : Bool) (st : Nat) (env : SimpleEnv)
    (net : NetOutcome) :
    (detectFrameSimple busy st env net).2 = st ∨
      (detectFrameSimple busy st env net).2 = env.now := by
  unfold detectFrameSimple
  split_ifs with h1 h2 h3
  · exact .inl rfl
  · exact .inl rfl
  · cases net with
    | throw => exact .inl rfl
    | ok data =>
      rcases hf : data.predictions.find? qualifiesSimple with _ | ph
      · exact .inl (by simp [hf])
      · exact .inr (by simp [hf])
  · cases net with
    | throw => exact .inl rfl
    | ok data =>
      rcases hf : data.predictions.find? qualifiesSimple with _ | ph <;>
        exact .inl (by simp [hf])

/-- Helper: the frame-relay cycle either leaves the cooldown timestamp alone
or assigns it the tick's `Date.now()`. -/
theorem relay_state_cases (busy : Bool) (st : Nat) (env : RelayEnv)
    (net : NetOutcome) :
    (detectFrameRelay busy st env net).2 = st ∨
      (detectFrameRelay busy st env net).2 = env.now := by
  unfold detectFrameRelay
  split_ifs with h1 h2 h3
  · exact .inl rfl
  · exact .inl rfl
  · exact .inl rfl
  · cases net with
    | throw => exact .inl rfl
    | ok data =>
      by_cases hth : (12000 : Nat) < env.now - st
      · rcases hev : data.evidence_url with _ | u
        · rcases hf : data.predictions.find? qualifiesRelay with _ | ph
          · exact .inl (by simp [hev, hf, hth, jsTruthyOptStr])
          · exact .inr (by simp [hev, hf, hth, jsTruthyOptStr])
        · by_cases hu : u = ""
          · rcases hf : data.predictions.find? qualifiesRelay with _ | ph
            · exact .inl (by simp [hev, hf, hth, hu, jsTruthyOptStr])
            · exact .inr (by simp [hev, hf, hth, hu, jsTruthyOptStr])
          · exact .inr (by simp [hev, hth, hu, jsTruthyOptStr])
      · rcases hev : data.evidence_url with _ | u <;>
          rcases hf : data.predictions.find? qualifiesRelay with _ | ph <;>
          exact .inl (by simp [hev, hf, hth, jsTruthyOptStr])

/-- Helper: no qualifying prediction in the response means the simple-polling
cycle sends no report. -/
theorem simple_noQualifying (busy : Bool) (st : Nat) (env : SimpleEnv)
    (data : DetectResp)
    (h : ∀ p ∈ data.predictions, qualifiesSimple p = false) :
    countReports (detectFrameSimple busy st env (.ok data)).1 = 0 := by
  have hf : data.predictions.find? qualifiesSimple = none :=
    List.find?_eq_none.mpr fun x hx => by simp [h x hx]
  unfold detectFrameSimple
  split_ifs with h1 h2 h3 <;> simp [hf, countReports]

/-- Helper: no qualifying prediction means the frame-relay cycle sends no
report either — even when the `evidence_url` branch fires, it only raises the
local alert. -/
theorem relay_noQualifying (busy : Bool) (st : Nat) (env : RelayEnv)
    (data : DetectResp)
    (h : ∀ p ∈ data.predictions, qualifiesRelay p = false) :
    countReports (detectFrameRelay busy st env (.ok data)).1 = 0 := by
  have hf : data.predictions.find? qualifiesRelay = none :=
    List.find?_eq_none.mpr fun x hx => by simp [h x hx]
  unfold detectFrameRelay
  split_ifs with h1 h2 h3
  · rfl
  · rfl
  · rfl
  · rcases hev : data.evidence_url with _ | u
    · by_cases hth : (12000 : Nat) < env.now - st <;>
        simp [hf, hev, hth, countReports, jsTruthyOptStr]
    · by_cases hu : u = "" <;>
        by_cases hth : (12000 : Nat) < env.now - st <;>
        simp [hf, hev, hth, hu, countReports, jsTruthyOptStr]

/-- Helper: a zero `naturalWidth` makes the simple-polling cycle return at
its first guard — no effects, no state change. -/
theorem simple_zeroWidth (busy : Bool) (st : Nat) (env : SimpleEnv)
    (net : NetOutcome) (hw : env.naturalWidth = 0) :
    detectFrameSimple busy st env net = ([], st) := by
  unfold detectFrameSimple
  rw [if_pos (by simp [hw])]

/-- Helper: a zero effective source width or height makes the frame-relay
cycle return before setting the busy flag — no effects, no state change. -/
theorem relay_zeroDims (busy : Bool) (st : Nat) (env : RelayEnv)
    (net : NetOutcome) (h : env.srcW = 0 ∨ env.srcH = 0) :
    detectFrameRelay busy st env net = ([], st) := by
  unfold detectFrameRelay
  split_ifs with h1 h2 h3
  · rfl
  · rfl
  · rfl
  · exact absurd (by rcases h with h | h <;> simp [h]) h3

/-- C1: the 12 s cooldown of the violation reporter. Any cycle whose tick
time is within 12000 ms of the cooldown timestamp sends no report and leaves
the timestamp unchanged — per cycle and over whole tick sequences, in both
variants; a qualifying detection strictly more than 12000 ms after the last
accepted one sends exactly one report and moves the timestamp to the tick
time; and on the concrete scenario (qualifying detections at t = 100 s,
+5 s and +13 s from a fresh instance) the first two ticks yield exactly one
report and the third yields the second. -/
theorem c1_cooldown :
    (∀ (busy : Bool) (st : Nat) (env : SimpleEnv) (net : NetOutcome),
      env.now ≤ st + 12000 →
      countReports (detectFrameSimple busy st env net).1 = 0 ∧
        (detectFrameSimple busy st env net).2 = st) ∧
    (∀ (busy : Bool) (st : Nat) (env : RelayEnv) (net : NetOutcome),
      env.now ≤ st + 12000 →
      countReports (detectFrameRelay busy st env net).1 = 0 ∧
        (detectFrameRelay busy st env net).2 = st) ∧
    (∀ (st : Nat) (ticks : List (SimpleEnv × NetOutcome)),
      (∀ t ∈ ticks, (t : SimpleEnv × NetOutcome).1.now ≤ st + 12000) →
      countReports (runSimple st ticks).1 = 0 ∧ (runSimple st ticks).2 = st) ∧
    (∀ (st : Nat) (ticks : List (RelayEnv × NetOutcome)),
      (∀ t ∈ ticks, (t : RelayEnv × NetOutcome).1.now ≤ st + 12000) →
      countReports (runRelay st ticks).1 = 0 ∧ (runRelay st ticks).2 = st) ∧
    (∀ (st : Nat) (env : SimpleEnv) (data : DetectResp) (ph : Prediction),
      env.imagePresent = true → ¬ env.naturalWidth = 0 →
      env.classId.isSome → env.teacherId.isSome →
      st + 12000 < env.now →
      data.predictions.find? qualifiesSimple = some ph →
      countReports (detectFrameSimple false st env (.ok data)).1 = 1 ∧
        (detectFrameSimple false st env (.ok data)).2 = env.now) ∧
    (∀ (st : Nat) (env : RelayEnv) (data : DetectResp) (ph : Prediction),
      env.imagePresent = true → ¬ env.srcW = 0 → ¬ env.srcH = 0 →
      st + 12000 < env.now → data.evidence_url = none →
      data.predictions.find? qualifiesRelay = some ph →
      countReports (detectFrameRelay false st env (.ok data)).1 = 1 ∧
        (detectFrameRelay false st env (.ok data)).2 = env.now) ∧
    (countReports (runSimple initialLastReportTime
        [(simpleTickEnv 100000, .ok qualResp),
         (simpleTickEnv 105000, .ok qualResp)]).1 = 1 ∧
      countReports (runSimple initialLastReportTime
        [(simpleTickEnv 100000, .ok qualResp),
         (simpleTickEnv 105000, .ok qualResp),
         (simpleTickEnv 113000, .ok qualResp)]).1 = 2) := by
  refine ⟨simple_suppressed, relay_suppressed, runSimple_suppressed,
    runRelay_suppressed, ?_, ?_, by decide, by decide⟩
  · intro st env data ph h1 h2 h3 h4 h5 h6
    exact ⟨(simple_accepted st env data ph h1 h2 h3 h4 h5 h6).2.1,
      (simple_accepted st env data ph h1 h2 h3 h4 h5 h6).2.2⟩
  · intro st env data ph h1 h2 h3 h4 h5 h6
    exact ⟨(relay_accepted st env data ph h1 h2 h3 h4 h5 h6).2.1,
      (relay_accepted st env data ph h1 h2 h3 h4 h5 h6).2.2⟩

/-- Witness for `c1_cooldown`: with the timestamp at 100 s, the tick at
105 s is suppressed in both variants; from a fresh instance the tick at
100 s sends exactly one report in both variants. -/
theorem c1_cooldown_witness :
    (countReports (detectFrameSimple false 100000 (simpleTickEnv 105000)
        (.ok qualResp)).1 = 0 ∧
      (detectFrameSimple false 100000 (simpleTickEnv 105000) (.ok qualResp)).2 = 100000) ∧
    (countReports (detectFrameRelay false 100000 (relayTickEnv 105000)
        (.ok qualResp)).1 = 0 ∧
      (detectFrameRelay false 100000 (relayTickEnv 105000) (.ok qualResp)).2 = 100000) ∧
    (countReports (detectFrameSimple false 0 (simpleTickEnv 100000)
        (.ok qualResp)).1 = 1 ∧
      (detectFrameSimple false 0 (simpleTickEnv 100000) (.ok qualResp)).2 = 100000) ∧
    (countReports (detectFrameRelay false 0 (relayTickEnv 100000)
        (.ok qualResp)).1 = 1 ∧
      (detectFrameRelay false 0 (relayTickEnv 100000) (.ok qualResp)).2 = 100000) :=
  ⟨c1_cooldown.1 false 100000 (simpleTickEnv 105000) (.ok qualResp) (by decide),
    c1_cooldown.2.1 false 100000 (relayTickEnv 105000) (.ok qualResp) (by decide),
    c1_cooldown.2.2.2.2.1 0 (simpleTickEnv 100000) qualResp cellPhoneHalf
      (by decide) (by decide) (by decide) (by decide) (by decide) (by decide),
    c1_cooldown.2.2.2.2.2.1 0 (relayTickEnv 100000) qualResp cellPhoneHalf
      (by decide) (by decide) (by decide) (by decide) (by decide) (by decide)⟩

/-- C2: the `isProcessing` busy flag gives mutual exclusion per component
instance. A timer firing while the flag is set produces no events at all —
no capture, no network call, no state change (the poll is dropped); and a
cycle that passes its guards sets the flag as its very first effect, before
the capture/send sequence, and clears it as its very last effect, on every
network outcome (success and failure alike). -/
theorem c2_busy_flag :
    (∀ (st : Nat) (env : SimpleEnv) (net : NetOutcome),
      detectFrameSimple true st env net = ([], st)) ∧
    (∀ (st : Nat) (env : RelayEnv) (net : NetOutcome),
      detectFrameRelay true st env net = ([], st)) ∧
    (∀ (st : Nat) (env : SimpleEnv) (net : NetOutcome),
      hasCaptureOrSend (detectFrameSimple true st env net).1 = false) ∧
    (∀ (st : Nat) (env : RelayEnv) (net : NetOutcome),
      hasCaptureOrSend (detectFrameRelay true st env net).1 = false) ∧
    (∀ (st : Nat) (env : SimpleEnv) (net : NetOutcome),
      env.imagePresent = true → ¬ env.naturalWidth = 0 →
      env.classId.isSome → env.teacherId.isSome →
      ∃ mid, (detectFrameSimple false st env net).1 =
          Ev.setBusy true :: (mid ++ [Ev.setBusy false]) ∧
        ∀ b, Ev.setBusy b ∉ mid) ∧
    (∀ (st : Nat) (env : RelayEnv) (net : NetOutcome),
      env.imagePresent = true → ¬ env.srcW = 0 → ¬ env.srcH = 0 →
      ∃ mid, (detectFrameRelay false st env net).1 =
          Ev.setBusy true :: (mid ++ [Ev.setBusy false]) ∧
        ∀ b, Ev.setBusy b ∉ mid) :=
  ⟨fun _ _ _ => rfl, fun _ _ _ => rfl, fun _ _ _ => rfl, fun _ _ _ => rfl,
    fun st env net h1 h2 h3 h4 => simple_shape st env net h1 h2 h3 h4,
    fun st env net h1 h2 h3 => relay_shape st env net h1 h2 h3⟩

/-- Witness for `c2_busy_flag`: concrete busy-tick drops and concrete
flag-bracketed traces for both variants, on a success and on a failure
outcome. -/
theorem c2_busy_flag_witness :
    detectFrameSimple true 0 (simpleTickEnv 1000) (.ok qualResp) = ([], 0) ∧
    detectFrameRelay true 0 (relayTickEnv 1000) .throw = ([], 0) ∧
    (∃ mid, (detectFrameSimple false 0 (simpleTickEnv 1000) .throw).1 =
        Ev.setBusy true :: (mid ++ [Ev.setBusy false]) ∧
      ∀ b, Ev.setBusy b ∉ mid) ∧
    (∃ mid, (detectFrameRelay false 0 (relayTickEnv 1000) (.ok qualResp)).1 =
        Ev.setBusy true :: (mid ++ [Ev.setBusy false]) ∧
      ∀ b, Ev.setBusy b ∉ mid) :=
  ⟨c2_busy_flag.1 0 (simpleTickEnv 1000) (.ok qualResp),
    c2_busy_flag.2.1 0 (relayTickEnv 1000) .throw,
    c2_busy_flag.2.2.2.2.1 0 (simpleTickEnv 1000) .throw
      (by decide) (by decide) (by decide) (by decide),
    c2_busy_flag.2.2.2.2.2 0 (relayTickEnv 1000) (.ok qualResp)
      (by decide) (by decide) (by decide)⟩

/-- C3: the frame source reconciler. A relayed frame event leaves the video
source untouched whenever it currently holds an `http://`/`https://` URL
(case-insensitively), and otherwise — empty source or data URI — overwrites
it with the relayed frame; so relayed frames resume updating the element as
soon as the source reverts to empty. -/
theorem c3_frame_reconciler :
    (∀ (msg : Option StreamMsg) (imagePresent : Bool) (curSrc : String),
      isHttpStream curSrc = true →
      onStreamMessage msg imagePresent curSrc = curSrc) ∧
    (∀ (m : StreamMsg) (curSrc : String), m.type = "frame" →
      isHttpStream curSrc = false →
      onStreamMessage (some m) true curSrc = m.image) ∧
    isHttpStream "" = false ∧
    isHttpStream "data:image/jpeg;base64,AAAA" = false ∧
    isHttpStream "http://192.168.1.101:81/stream" = true ∧
    isHttpStream "HTTPS://cam.example/stream" = true := by
  refine ⟨?_, ?_, by decide, by decide, by decide, by decide⟩
  · intro msg ip cur h
    cases msg with
    | none => rfl
    | some m => simp [onStreamMessage, h]
  · intro m cur hm h
    simp [onStreamMessage, hm, h]

/-- Witness for `c3_frame_reconciler`: an HTTP stream URL survives a relayed
frame, and a data-URI source is overwritten by it. -/
theorem c3_frame_reconciler_witness :
    onStreamMessage
        (some { type := "frame", image := "data:image/jpeg;base64,NEW",
                predictions := [] })
        true "http://192.168.1.101:81/stream" = "http://192.168.1.101:81/stream" ∧
    onStreamMessage
        (some { type := "frame", image := "data:image/jpeg;base64,NEW",
                predictions := [] })
        true "data:image/jpeg;base64,OLD" = "data:image/jpeg;base64,NEW" :=
  ⟨c3_frame_reconciler.1
      (some { type := "frame", image := "data:image/jpeg;base64,NEW",
              predictions := [] })
      true "http://192.168.1.101:81/stream" (by decide),
    c3_frame_reconciler.2.1
      { type := "frame", image := "data:image/jpeg;base64,NEW", predictions := [] }
      "data:image/jpeg;base64,OLD" rfl (by decide)⟩

/-- C4: the overlay renderer. For positive native and displayed sizes, one
call clears the surface and then emits exactly one stroked rectangle and one
uppercased label per prediction, scaled per axis by displayed ÷ native size —
in both variants — and on the spec's scenario (`cell phone` at 0.5
confidence, box (10,10,50,50), native 640×480 displayed at 1280×960) it
draws a red rectangle at (20,20,100,100) labelled `CELL PHONE`. -/
theorem c4_overlay :
    (∀ (preds : List Prediction) (cw ch nw nh : ℚ),
      0 < nw → 0 < nh → 0 < cw → 0 < ch →
      drawOverlaySimple true true cw ch nw nh preds =
        .clear cw ch :: preds.flatMap (predCmds (cw / nw) (ch / nh))) ∧
    (∀ (preds : List Prediction) (env : RelayEnv) (sw sh : ℚ),
      0 < sw → 0 < sh → 0 < env.clientWidth → 0 < env.clientHeight →
      drawOverlayRelay true true sw sh env preds =
        .clear env.clientWidth env.clientHeight ::
          preds.flatMap (predCmds (env.clientWidth / sw) (env.clientHeight / sh))) ∧
    (∀ (preds : List Prediction) (cw ch nw nh : ℚ),
      (drawOverlaySimple true true cw ch nw nh preds).length =
        1 + 2 * preds.length) ∧
    drawOverlaySimple true true 1280 960 640 480 [cellPhoneHalf] =
      [.clear 1280 960, .rect "#ff0000" 20 20 100 100,
       .label "#ff0000" "CELL PHONE" 20 10] := by
  refine ⟨fun preds cw ch nw nh _ _ _ _ => rfl, ?_, ?_, ?_⟩
  · intro preds env sw sh hsw hsh hcw hch
    have h1 : (sw == 0) = false := by simp [hsw.ne']
    have h2 : (sh == 0) = false := by simp [hsh.ne']
    have h3 : (env.clientWidth == 0) = false := by simp [hcw.ne']
    have h4 : (env.clientHeight == 0) = false := by simp [hch.ne']
    simp [drawOverlayRelay, jsOrQ, h1, h2, h3, h4, hsw.ne', hsh.ne',
      hcw.ne', hch.ne']
  · intro preds cw ch nw nh
    induction preds with
    | nil => simp [drawOverlaySimple]
    | cons p rest ih =>
      simp [drawOverlaySimple, predCmds] at ih ⊢
      omega
  · norm_num [drawOverlaySimple, predCmds, upperAscii, List.flatMap, cellPhoneHalf]
    decide

/-- Witness for `c4_overlay`: the per-axis-scaling equations applied at the
scenario's sizes. -/
theorem c4_overlay_witness :
    drawOverlaySimple true true 1280 960 640 480 [cellPhoneHalf] =
      .clear 1280 960 ::
        [cellPhoneHalf].flatMap (predCmds (1280 / 640) (960 / 480)) ∧
    drawOverlayRelay true true 640 480 (relayTickEnv 0) [cellPhoneHalf] =
      .clear (relayTickEnv 0).clientWidth (relayTickEnv 0).clientHeight ::
        [cellPhoneHalf].flatMap
          (predCmds ((relayTickEnv 0).clientWidth / 640)
            ((relayTickEnv 0).clientHeight / 480)) :=
  ⟨c4_overlay.1 [cellPhoneHalf] 1280 960 640 480
      (by decide) (by decide) (by decide) (by decide),
    c4_overlay.2.1 [cellPhoneHalf] (relayTickEnv 0) 640 480
      (by decide) (by decide) (by decide) (by decide)⟩

/-- C5 counterexample: in the simple-polling variant a tick whose media
reports natural width 1 and natural height 0 still performs the frame
capture and the detect POST — the guard checks only `naturalWidth === 0`,
so "zero width or zero height … in both component variants" fails. -/
theorem c5_counterexample :
    hasCaptureOrSend (detectFrameSimple false 0
      { imagePresent := true, naturalWidth := 1, naturalHeight := 0,
        classId := some 1, teacherId := some 1, now := 0 } .throw).1 = true ∧
    (detectFrameSimple false 0
      { imagePresent := true, naturalWidth := 1, naturalHeight := 0,
        classId := some 1, teacherId := some 1, now := 0 } .throw).1 =
      [.setBusy true, .capture 1 0, .detectPost, .setBusy false] := by
  decide

/-- C5 (amended): the frame-relay variant skips the whole cycle — no events,
before the busy flag is touched — when the effective source width or height
is zero; the simple-polling variant does so when the natural width is zero
(its guard does not inspect the height). -/
theorem c5_zero_dims :
    (∀ (busy : Bool) (st : Nat) (env : RelayEnv) (net : NetOutcome),
      env.srcW = 0 ∨ env.srcH = 0 →
      detectFrameRelay busy st env net = ([], st)) ∧
    (∀ (busy : Bool) (st : Nat) (env : SimpleEnv) (net : NetOutcome),
      env.naturalWidth = 0 →
      detectFrameSimple busy st env net = ([], st)) :=
  ⟨fun busy st env net h => relay_zeroDims busy st env net h,
    fun busy st env net h => simple_zeroWidth busy st env net h⟩

/-- Witness for `c5_zero_dims`: a relay tick whose three width sources are
all zero is dropped, as is a simple-variant tick with zero natural width. -/
theorem c5_zero_dims_witness :
    detectFrameRelay false 7
      { imagePresent := true, videoWidth := 0, naturalWidth := 0, clientWidth := 0,
        videoHeight := 480, naturalHeight := 0, clientHeight := 0, now := 99999 }
      .throw = ([], 7) ∧
    detectFrameSimple false 7
      { imagePresent := true, naturalWidth := 0, naturalHeight := 480,
        classId := some 1, teacherId := some 1, now := 99999 } .throw = ([], 7) :=
  ⟨c5_zero_dims.1 false 7 _ .throw (.inl (by decide)),
    c5_zero_dims.2 false 7 _ .throw (by decide)⟩

/-- C6: the qualifying predicate of the violation reporter. A prediction
qualifies iff its class equals `"cell phone"` and its confidence strictly
exceeds the variant's threshold — 0.35 (= 7/20) in the simple-polling
variant and 0.18 (= 9/50) in the frame-relay variant — and a response none
of whose predictions qualify never triggers a report in either variant. -/
theorem c6_threshold :
    (∀ p : Prediction,
      qualifiesSimple p = true ↔ p.cls = "cell phone" ∧ threshSimple < p.conf) ∧
    (∀ p : Prediction,
      qualifiesRelay p = true ↔ p.cls = "cell phone" ∧ threshRelay < p.conf) ∧
    threshSimple = 35 / 100 ∧ threshRelay = 18 / 100 ∧
    (∀ (busy : Bool) (st : Nat) (env : SimpleEnv) (data : DetectResp),
      (∀ p ∈ data.predictions, qualifiesSimple p = false) →
      countReports (detectFrameSimple busy st env (.ok data)).1 = 0) ∧
    (∀ (busy : Bool) (st : Nat) (env : RelayEnv) (data : DetectResp),
      (∀ p ∈ data.predictions, qualifiesRelay p = false) →
      countReports (detectFrameRelay busy st env (.ok data)).1 = 0) := by
  refine ⟨?_, ?_, ?_, ?_, simple_noQualifying, relay_noQualifying⟩
  · intro p; simp [qualifiesSimple]
  · intro p; simp [qualifiesRelay]
  · rw [threshSimple, Rat.mk'_eq_divInt]; norm_num [Rat.divInt_eq_div]
  · rw [threshRelay, Rat.mk'_eq_divInt]; norm_num [Rat.divInt_eq_div]

/-- Witness for `c6_threshold`: 0.5 confidence qualifies in both variants,
0.25 does not qualify in the simple variant, a non-target class never
qualifies, and a tick whose response holds only non-qualifying predictions
sends no report. -/
theorem c6_threshold_witness :
    (qualifiesSimple cellPhoneHalf = true ↔
      cellPhoneHalf.cls = "cell phone" ∧ threshSimple < cellPhoneHalf.conf) ∧
    (qualifiesRelay laptopPred = true ↔
      laptopPred.cls = "cell phone" ∧ threshRelay < laptopPred.conf) ∧
    countReports (detectFrameSimple false 0 (simpleTickEnv 100000)
      (.ok { predictions := [lowConfPhone, laptopPred], evidence_url := none })).1 = 0 ∧
    countReports (detectFrameRelay false 0 (relayTickEnv 100000)
      (.ok { predictions := [laptopPred], evidence_url := none })).1 = 0 :=
  ⟨c6_threshold.1 cellPhoneHalf,
    c6_threshold.2.1 laptopPred,
    c6_threshold.2.2.2.2.1 false 0 (simpleTickEnv 100000)
      { predictions := [lowConfPhone, laptopPred], evidence_url := none }
      (by decide),
    c6_threshold.2.2.2.2.2 false 0 (relayTickEnv 100000)
      { predictions := [laptopPred], evidence_url := none }
      (by decide)⟩

/-- C7 counterexample: a detect response that contains the `evidence_url`
field with the empty-string (JS-falsy) value alongside a qualifying
prediction, on an elapsed cooldown, skips the evidence branch — the
component sends the report-violation POST and raises no local
acknowledgment, refuting the claim for responses whose `evidence_url` is
present but falsy. -/
theorem c7_counterexample :
    (detectFrameRelay false 0 (relayTickEnv 100000) (.ok evidEmptyResp)).1 =
      [.setBusy true, .capture (relayTickEnv 100000).srcW (relayTickEnv 100000).srcH,
       .detectPost, .drawOverlayEv, .reportPost cellPhoneHalf, .setBusy false] ∧
    countReports (detectFrameRelay false 0 (relayTickEnv 100000) (.ok evidEmptyResp)).1 = 1 ∧
    Ev.localAlert ∉ (detectFrameRelay false 0 (relayTickEnv 100000) (.ok evidEmptyResp)).1 := by
  decide

/-- C7 (amended): in the frame-relay variant, a detect response carrying a
truthy (non-empty) `evidence_url` on a cycle whose cooldown has elapsed
updates the timestamp and produces only the local acknowledgment alert — no
report-violation POST — for every such response, including those that also
contain a qualifying prediction.  (An `evidence_url` that is present but
empty is JS-falsy: the branch is skipped and a qualifying prediction is
reported as usual.) -/
theorem c7_evidence_ack (st : Nat) (env : RelayEnv) (data : DetectResp)
    (himg : env.imagePresent = true) (hw : ¬ env.srcW = 0) (hh : ¬ env.srcH = 0)
    (hev : jsTruthyOptStr data.evidence_url = true) (hcool : st + 12000 < env.now) :
    (detectFrameRelay false st env (.ok data)).1 =
      [.setBusy true, .capture env.srcW env.srcH, .detectPost, .drawOverlayEv,
       .localAlert, .setBusy false] ∧
    countReports (detectFrameRelay false st env (.ok data)).1 = 0 ∧
    (detectFrameRelay false st env (.ok data)).2 = env.now := by
  have ht : 12000 < env.now - st := by omega
  have hg : (env.srcW == 0 || env.srcH == 0) = false := by simp [hw, hh]
  unfold detectFrameRelay
  rw [if_neg (by simp), if_neg (by simp [himg]), hg]
  simp [hev, ht, countReports]

/-- Witness for `c7_evidence_ack`: a response with both a qualifying
prediction and saved evidence, on an elapsed cooldown, yields only the local
alert and the timestamp update. -/
theorem c7_evidence_ack_witness :
    (detectFrameRelay false 0 (relayTickEnv 100000) (.ok evidResp)).1 =
      [.setBusy true, .capture (relayTickEnv 100000).srcW (relayTickEnv 100000).srcH,
       .detectPost, .drawOverlayEv, .localAlert, .setBusy false] ∧
    countReports (detectFrameRelay false 0 (relayTickEnv 100000) (.ok evidResp)).1 = 0 ∧
    (detectFrameRelay false 0 (relayTickEnv 100000) (.ok evidResp)).2 = 100000 :=
  c7_evidence_ack 0 (relayTickEnv 100000) evidResp
    (by decide) (by decide) (by decide) (by decide) (by decide)

/-- C8 counterexample: with a token present, a failed response whose JSON
body contains `detail: ""` is surfaced with the default status message, not
the server-supplied (empty) detail — JavaScript `||` discards a falsy
`detail` — refuting the claim for bodies that contain a falsy detail. -/
theorem c8_counterexample :
    fetchData (some "tok") { ok := false, status := 500, body := .json (some "") } =
      (true, .error "Request failed with status 500.") ∧
    "Request failed with status 500." ≠ "" := by
  constructor
  · simp [fetchData, jsTruthyOptStr, detailOrDefault, defaultErrorMsg]
    decide
  · decide

/-- C8 (amended): `fetchData` with a falsy token — absent or the empty
string — throws the fixed authentication message without reaching the
network; with a non-empty token, on a non-success response it throws the
server's `detail` when the body is JSON with a non-empty detail, and
otherwise the default message naming the status code; it never returns a
value on a non-success response. -/
theorem c8_fetchData :
    (∀ resp : HttpResp, fetchData none resp = (false, .error authErrorMsg)) ∧
    (∀ resp : HttpResp, fetchData (some "") resp = (false, .error authErrorMsg)) ∧
    (∀ (tok : String) (resp : HttpResp) (d : String), ¬ tok = "" →
      resp.ok = false → resp.body = .json (some d) → ¬ d = "" →
      fetchData (some tok) resp = (true, .error d)) ∧
    (∀ (tok : String) (resp : HttpResp), ¬ tok = "" → resp.ok = false →
      (resp.body = .notJson ∨ resp.body = .json none ∨ resp.body = .json (some "")) →
      fetchData (some tok) resp = (true, .error (defaultErrorMsg resp.status))) ∧
    (∀ (tok : String) (resp : HttpResp), ¬ tok = "" → resp.ok = false →
      ∃ msg, fetchData (some tok) resp = (true, .error msg)) := by
  refine ⟨fun resp => rfl, fun resp => by simp [fetchData, jsTruthyOptStr], ?_, ?_, ?_⟩
  · intro tok resp d htok hok hbody hne
    simp [fetchData, jsTruthyOptStr, htok, hok, hbody, detailOrDefault, hne]
  · intro tok resp htok hok hbody
    rcases hbody with h | h | h <;>
      simp [fetchData, jsTruthyOptStr, htok, hok, h, detailOrDefault]
  · intro tok resp htok hok
    exact ⟨detailOrDefault resp.body (defaultErrorMsg resp.status),
      by simp [fetchData, jsTruthyOptStr, htok, hok]⟩

/-- Witness for `c8_fetchData`: the missing-token and empty-token throws, a
401 with a non-empty server detail surfaced verbatim, and a 500 with a
non-JSON body surfaced with the default message. -/
theorem c8_fetchData_witness :
    fetchData none { ok := true, status := 200, body := .notJson } =
      (false, .error authErrorMsg) ∧
    fetchData (some "") { ok := false, status := 500, body := .notJson } =
      (false, .error authErrorMsg) ∧
    fetchData (some "t")
        { ok := false, status := 401, body := .json (some "Invalid credentials") } =
      (true, .error "Invalid credentials") ∧
    fetchData (some "t") { ok := false, status := 500, body := .notJson } =
      (true, .error (defaultErrorMsg 500)) :=
  ⟨c8_fetchData.1 { ok := true, status := 200, body := .notJson },
    c8_fetchData.2.1 { ok := false, status := 500, body := .notJson },
    c8_fetchData.2.2.1 "t"
      { ok := false, status := 401, body := .json (some "Invalid credentials") }
      "Invalid credentials" (by decide) rfl rfl (by decide),
    c8_fetchData.2.2.2.1 "t" { ok := false, status := 500, body := .notJson }
      (by decide) rfl (.inl rfl)⟩

/-- C9: the cooldown timestamp starts at 0, so a first qualifying detection
at any wall-clock time beyond 12000 ms (every real `Date.now()`) is accepted
and reported in both variants; the timestamp is only ever assigned the tick's
current time, hence is non-decreasing whenever the clock is. -/
theorem c9_timestamp :
    initialLastReportTime = 0 ∧
    (∀ (env : SimpleEnv) (data : DetectResp) (ph : Prediction),
      env.imagePresent = true → ¬ env.naturalWidth = 0 →
      env.classId.isSome → env.teacherId.isSome → 12000 < env.now →
      data.predictions.find? qualifiesSimple = some ph →
      countReports (detectFrameSimple false initialLastReportTime env (.ok data)).1 = 1 ∧
        (detectFrameSimple false initialLastReportTime env (.ok data)).2 = env.now) ∧
    (∀ (env : RelayEnv) (data : DetectResp) (ph : Prediction),
      env.imagePresent = true → ¬ env.srcW = 0 → ¬ env.srcH = 0 →
      12000 < env.now → data.evidence_url = none →
      data.predictions.find? qualifiesRelay = some ph →
      countReports (detectFrameRelay false initialLastReportTime env (.ok data)).1 = 1 ∧
        (detectFrameRelay false initialLastReportTime env (.ok data)).2 = env.now) ∧
    (∀ (busy : Bool) (st : Nat) (env : SimpleEnv) (net : NetOutcome),
      (detectFrameSimple busy st env net).2 = st ∨
        (detectFrameSimple busy st env net).2 = env.now) ∧
    (∀ (busy : Bool) (st : Nat) (env : RelayEnv) (net : NetOutcome),
      (detectFrameRelay busy st env net).2 = st ∨
        (detectFrameRelay busy st env net).2 = env.now) ∧
    (∀ (busy : Bool) (st : Nat) (env : SimpleEnv) (net : NetOutcome),
      st ≤ env.now → st ≤ (detectFrameSimple busy st env net).2) ∧
    (∀ (busy : Bool) (st : Nat) (env : RelayEnv) (net : NetOutcome),
      st ≤ env.now → st ≤ (detectFrameRelay busy st env net).2) := by
  refine ⟨rfl, ?_, ?_, simple_state_cases, relay_state_cases, ?_, ?_⟩
  · intro env data ph h1 h2 h3 h4 h5 h6
    exact ⟨(simple_accepted 0 env data ph h1 h2 h3 h4 (by omega) h6).2.1,
      (simple_accepted 0 env data ph h1 h2 h3 h4 (by omega) h6).2.2⟩
  · intro env data ph h1 h2 h3 h4 h5 h6
    exact ⟨(relay_accepted 0 env data ph h1 h2 h3 (by omega) h5 h6).2.1,
      (relay_accepted 0 env data ph h1 h2 h3 (by omega) h5 h6).2.2⟩
  · intro busy st env net h
    rcases simple_state_cases busy st env net with hc | hc <;> omega
  · intro busy st env net h
    rcases relay_state_cases busy st env net with hc | hc <;> omega

/-- Witness for `c9_timestamp`: a fresh instance reports the first
qualifying detection at t = 100 s in both variants, and the timestamp never
decreases on a concrete suppressed tick. -/
theorem c9_timestamp_witness :
    (countReports (detectFrameSimple false initialLastReportTime
        (simpleTickEnv 100000) (.ok qualResp)).1 = 1 ∧
      (detectFrameSimple false initialLastReportTime (simpleTickEnv 100000)
        (.ok qualResp)).2 = 100000) ∧
    (countReports (detectFrameRelay false initialLastReportTime
        (relayTickEnv 100000) (.ok qualResp)).1 = 1 ∧
      (detectFrameRelay false initialLastReportTime (relayTickEnv 100000)
        (.ok qualResp)).2 = 100000) ∧
    100000 ≤ (detectFrameSimple false 100000 (simpleTickEnv 105000)
      (.ok qualResp)).2 :=
  ⟨c9_timestamp.2.1 (simpleTickEnv 100000) qualResp cellPhoneHalf
      (by decide) (by decide) (by decide) (by decide) (by decide) (by decide),
    c9_timestamp.2.2.1 (relayTickEnv 100000) qualResp cellPhoneHalf
      (by decide) (by decide) (by decide) (by decide) (by decide) (by decide),
    c9_timestamp.2.2.2.2.2.1 false 100000 (simpleTickEnv 105000)
      (.ok qualResp) (by decide)⟩

/-- C10: the auth provider's `logout` clears the entire client-side
key/value storage — afterwards every key reads back as absent — and resets
the provider state: `token` is null, `isAuthenticated` is false, `userRole`
is null. -/
theorem c10_logout :
    ∀ (st : AuthState) (store : Store),
      (logout st store).1.token = none ∧
      (logout st store).1.isAuthenticated = false ∧
      (logout st store).1.userRole = none ∧
      (logout st store).2 = [] ∧
      ∀ k : String, Store.getItem (logout st store).2 k = none :=
  fun _ _ => ⟨rfl, rfl, rfl, rfl, fun _ => rfl⟩

end Rana
